import Mathlib

/-!
Verification of the AouSupportChatBot backend (`backend/app.py`,
`backend/database.py`).

The SQLite database is shallowly embedded as lists of typed rows together
with the `AUTOINCREMENT` counters; timestamps (`CURRENT_TIMESTAMP` column
defaults) are passed explicitly as natural numbers to the mutating
operations.  Each Python function of the two modules is translated to a
pure Lean function over that state.  Python truthiness of the arguments
(`if not user_id`, `if not session_id`, ...) is rendered as `= 0` for
integer ids and `= ""` for strings, matching the types the routes pass.
-/

namespace AouBot

/-! ### Python string helpers

`str.strip()` with no argument removes leading and trailing whitespace
(space, tab, newline, carriage return, vertical tab, form feed). -/

def pyIsSpace (c : Char) : Bool :=
  c == ' ' || c == '\t' || c == '\n' || c == '\r' || c == '\x0b' || c == '\x0c'

def pyStrip (s : String) : String :=
  ⟨((s.data.dropWhile pyIsSpace).reverse.dropWhile pyIsSpace).reverse⟩

/-! ### SHA-256 (`hashlib.sha256(...).hexdigest()` from `app.py`)

Executable SHA-256 over natural numbers; every word is kept `< 2^32` by
reducing modulo `2^32` after each arithmetic step. -/

namespace SHA256

def M32 : Nat := 4294967296

def rotr (n x : Nat) : Nat := ((x >>> n) ||| (x <<< (32 - n))) % M32

def shr (n x : Nat) : Nat := x >>> n

def bnot32 (x : Nat) : Nat := x ^^^ 4294967295

def ch (x y z : Nat) : Nat := (x &&& y) ^^^ (bnot32 x &&& z)

def maj (x y z : Nat) : Nat := (x &&& y) ^^^ (x &&& z) ^^^ (y &&& z)

def bigSigma0 (x : Nat) : Nat := rotr 2 x ^^^ rotr 13 x ^^^ rotr 22 x

def bigSigma1 (x : Nat) : Nat := rotr 6 x ^^^ rotr 11 x ^^^ rotr 25 x

def smallSigma0 (x : Nat) : Nat := rotr 7 x ^^^ rotr 18 x ^^^ shr 3 x

def smallSigma1 (x : Nat) : Nat := rotr 17 x ^^^ rotr 19 x ^^^ shr 10 x

/-- The 64 round constants of FIPS 180-4, written in decimal. -/
def K : List Nat :=
  [1116352408, 1899447441, 3049323471, 3921009573, 961987163,
   1508970993, 2453635748, 2870763221, 3624381080, 310598401,
   607225278, 1426881987, 1925078388, 2162078206, 2614888103,
   3248222580, 3835390401, 4022224774, 264347078, 604807628,
   770255983, 1249150122, 1555081692, 1996064986, 2554220882,
   2821834349, 2952996808, 3210313671, 3336571891, 3584528711,
   113926993, 338241895, 666307205, 773529912, 1294757372,
   1396182291, 1695183700, 1986661051, 2177026350, 2456956037,
   2730485921, 2820302411, 3259730800, 3345764771, 3516065817,
   3600352804, 4094571909, 275423344, 430227734, 506948616,
   659060556, 883997877, 958139571, 1322822218, 1537002063,
   1747873779, 1955562222, 2024104815, 2227730452, 2361852424,
   2428436474, 2756734187, 3204031479, 3329325298]

/-- The eight initial hash words of FIPS 180-4, written in decimal. -/
def H0 : List Nat :=
  [1779033703, 3144134277, 1013904242, 2773480762, 1359893119,
   2600822924, 528734635, 1541459225]

/-- UTF-8 encoding of one character (`str.encode("utf-8")`), as byte values. -/
def encodeChar (c : Char) : List Nat :=
  let n := c.toNat
  if n < 0x80 then [n]
  else if n < 0x800 then
    [0xC0 ||| (n >>> 6), 0x80 ||| (n &&& 0x3F)]
  else if n < 0x10000 then
    [0xE0 ||| (n >>> 12), 0x80 ||| ((n >>> 6) &&& 0x3F), 0x80 ||| (n &&& 0x3F)]
  else
    [0xF0 ||| (n >>> 18), 0x80 ||| ((n >>> 12) &&& 0x3F),
     0x80 ||| ((n >>> 6) &&& 0x3F), 0x80 ||| (n &&& 0x3F)]

def utf8Bytes (s : String) : List Nat :=
  s.data.flatMap encodeChar

/-- Merkle–Damgård padding: `0x80`, zeros to 56 mod 64, 64-bit big-endian bit length. -/
def pad (msg : List Nat) : List Nat :=
  let len := msg.length
  let bitLen := 8 * len
  let zeros := (119 - len % 64) % 64
  msg ++ [0x80] ++ List.replicate zeros 0 ++
    (List.range 8).map fun i => (bitLen >>> (8 * (7 - i))) &&& 0xff

def chunks64 (l : List Nat) : List (List Nat) :=
  if h : l = [] then []
  else l.take 64 :: chunks64 (l.drop 64)
termination_by l.length
decreasing_by
  have hp : 0 < l.length := List.length_pos.mpr h
  simp [List.length_drop]
  omega

/-- The 16 initial 32-bit words of a 64-byte block (big-endian). -/
def blockWords (b : List Nat) : List Nat :=
  (List.range 16).map fun i =>
    (b.getD (4 * i) 0 <<< 24) ||| (b.getD (4 * i + 1) 0 <<< 16) |||
    (b.getD (4 * i + 2) 0 <<< 8) ||| b.getD (4 * i + 3) 0

/-- Extend 16 words to the 64-word message schedule. -/
def schedule (w : List Nat) : List Nat :=
  (List.range 48).foldl
    (fun w _ =>
      let t := w.length
      w ++ [(smallSigma1 (w.getD (t - 2) 0) + w.getD (t - 7) 0 +
             smallSigma0 (w.getD (t - 15) 0) + w.getD (t - 16) 0) % M32])
    w

structure Regs where
  a : Nat
  b : Nat
  c : Nat
  d : Nat
  e : Nat
  f : Nat
  g : Nat
  hh : Nat
deriving Repr, DecidableEq

def roundStep (r : Regs) (wk : Nat × Nat) : Regs :=
  let t1 := (r.hh + bigSigma1 r.e + ch r.e r.f r.g + wk.2 + wk.1) % M32
  let t2 := (bigSigma0 r.a + maj r.a r.b r.c) % M32
  { a := (t1 + t2) % M32, b := r.a, c := r.b, d := r.c,
    e := (r.d + t1) % M32, f := r.e, g := r.f, hh := r.g }

def compress (hs : List Nat) (block : List Nat) : List Nat :=
  let ws := schedule (blockWords block)
  let r0 : Regs :=
    { a := hs.getD 0 0, b := hs.getD 1 0, c := hs.getD 2 0, d := hs.getD 3 0,
      e := hs.getD 4 0, f := hs.getD 5 0, g := hs.getD 6 0, hh := hs.getD 7 0 }
  let r := (ws.zip K).foldl roundStep r0
  [(hs.getD 0 0 + r.a) % M32, (hs.getD 1 0 + r.b) % M32,
   (hs.getD 2 0 + r.c) % M32, (hs.getD 3 0 + r.d) % M32,
   (hs.getD 4 0 + r.e) % M32, (hs.getD 5 0 + r.f) % M32,
   (hs.getD 6 0 + r.g) % M32, (hs.getD 7 0 + r.hh) % M32]

def hexDigitChar (n : Nat) : Char :=
  if n < 10 then Char.ofNat (48 + n) else Char.ofNat (87 + n)

def wordHex (x : Nat) : List Char :=
  (List.range 8).map fun i => hexDigitChar ((x >>> (4 * (7 - i))) &&& 15)

/-- Hex digest of the SHA-256 of the UTF-8 encoding of a string. -/
def hexdigest (s : String) : String :=
  let blocks := chunks64 (pad (utf8Bytes s))
  let hs := blocks.foldl compress H0
  ⟨hs.flatMap wordHex⟩

end SHA256

/-- Model of `hash_password` (`app.py` lines 49–50):
`hashlib.sha256(password.encode("utf-8")).hexdigest()`. -/
def hash_password (password : String) : String :=
  SHA256.hexdigest password

/-! ### Data model (`database.py`, `init_db`)

One structure per table row.  `id` columns are `INTEGER PRIMARY KEY
AUTOINCREMENT`; the database state carries the next value of each counter.
`created_at` columns (`TIMESTAMP DEFAULT CURRENT_TIMESTAMP`) receive the
insertion-time clock value, passed to each mutating operation as `now`. -/

structure UserRow where
  id : Nat
  username : String
  email : String
  password : String
deriving Repr, DecidableEq

structure ChatRow where
  id : Nat
  user_id : Nat
  session_id : String
  role : String
  message : String
  created_at : Nat
deriving Repr, DecidableEq

structure SessionRow where
  id : Nat
  user_id : Nat
  session_id : String
  title : Option String
  created_at : Nat
deriving Repr, DecidableEq

/-- The whole SQLite database: the three tables (rows in physical order,
i.e. order of insertion) plus the `AUTOINCREMENT` counters. -/
structure DB where
  users : List UserRow
  chats : List ChatRow
  chat_sessions : List SessionRow
  nextUserId : Nat
  nextChatId : Nat
  nextSessionRowId : Nat
deriving Repr, DecidableEq

/-- Model of `init_db` on a fresh file: all tables empty, counters at 1. -/
def init_db : DB :=
  { users := [], chats := [], chat_sessions := [],
    nextUserId := 1, nextChatId := 1, nextSessionRowId := 1 }

/-- Does a `chats` row match a (user_id, session_id) pair?  (The `WHERE
user_id = ? AND session_id = ?` condition.) -/
def chatMatch (uid : Nat) (sid : String) (c : ChatRow) : Bool :=
  c.user_id == uid && c.session_id == sid

/-- Does a `chat_sessions` row match a (user_id, session_id) pair? -/
def sessMatch (uid : Nat) (sid : String) (s : SessionRow) : Bool :=
  s.user_id == uid && s.session_id == sid

/-- The `chats` rows of one session, in physical (= id) order. -/
def sessionChats (db : DB) (uid : Nat) (sid : String) : List ChatRow :=
  db.chats.filter (chatMatch uid sid)

/-- The `chat_sessions` rows of one (user_id, session_id) pair.  The
`UNIQUE (user_id, session_id)` constraint means at most one exists in any
reachable state (proved below as `Reachable.sessionsUnique`). -/
def sessionRows (db : DB) (uid : Nat) (sid : String) : List SessionRow :=
  db.chat_sessions.filter (sessMatch uid sid)

/-! ### `database.py` operations -/

/-- Model of `get_user_id` (`database.py` lines 58–67): `SELECT id FROM users WHERE
email = ?` and `fetchone`; `None` when the email is empty or unmatched. -/
def get_user_id (db : DB) (email : String) : Option Nat :=
  if email == "" then none
  else
    match db.users.filter (fun u => u.email == email) with
    | [] => none
    | u :: _ => some u.id

/-- Model of `save_message` (`database.py` lines 71–91): no-op unless user_id,
session_id and message are all truthy; otherwise `INSERT INTO chats ...`
followed by `INSERT OR IGNORE INTO chat_sessions (user_id, session_id)`
(ignored when a row for the pair already exists, by the UNIQUE constraint). -/
def save_message (db : DB) (uid : Nat) (sid role msg : String) (now : Nat) : DB :=
  if uid == 0 || sid == "" || msg == "" then db
  else
    let row : ChatRow :=
      { id := db.nextChatId, user_id := uid, session_id := sid,
        role := role, message := msg, created_at := now }
    let db :=
      { db with chats := db.chats ++ [row], nextChatId := db.nextChatId + 1 }
    if db.chat_sessions.any (sessMatch uid sid) then db
    else
      let srow : SessionRow :=
        { id := db.nextSessionRowId, user_id := uid, session_id := sid,
          title := none, created_at := now }
      { db with
        chat_sessions := db.chat_sessions ++ [srow],
        nextSessionRowId := db.nextSessionRowId + 1 }

/-- Model of `get_chat_history` (`database.py` lines 95–107): `SELECT role, message
FROM chats WHERE user_id = ? AND session_id = ? ORDER BY id`, rendered as
`{"role": r[0], "text": r[1]}` pairs. -/
def get_chat_history (db : DB) (uid : Nat) (sid : String) : List (String × String) :=
  if uid == 0 || sid == "" then []
  else
    ((sessionChats db uid sid).insertionSort (fun a b => a.id ≤ b.id)).map
      fun r => (r.role, r.message)

/-- One result row of `get_sessions`. -/
structure SessionInfo where
  session_id : String
  title : Option String
  messages_count : Nat
  last_activity : Nat
deriving Repr, DecidableEq

/-- Model of `COALESCE(MAX(c.created_at), cs.created_at)` for one session row: the
greatest message timestamp, or the session row's creation time when the
session has no messages. -/
def lastActivity (db : DB) (s : SessionRow) : Nat :=
  match sessionChats db s.user_id s.session_id with
  | [] => s.created_at
  | cs => (cs.map ChatRow.created_at).foldl max 0

/-- The aggregate row `get_sessions` builds for one `chat_sessions` row
(the LEFT JOIN / GROUP BY of `database.py` lines 117–132; each group is a
single `chat_sessions` row since (user_id, session_id) is UNIQUE). -/
def sessionInfoOf (db : DB) (s : SessionRow) : SessionInfo :=
  { session_id := s.session_id, title := s.title,
    messages_count := (sessionChats db s.user_id s.session_id).length,
    last_activity := lastActivity db s }

/-- The `ORDER BY last_activity DESC` ordering as a relation on result rows. -/
def laterFirst : SessionInfo → SessionInfo → Prop :=
  fun a b => b.last_activity ≤ a.last_activity

instance : DecidableRel laterFirst := fun a b => Nat.decLe b.last_activity a.last_activity

instance : IsTotal SessionInfo laterFirst := ⟨fun a b => Nat.le_total b.last_activity a.last_activity⟩

instance : IsTrans SessionInfo laterFirst := ⟨fun _ _ _ h h' => Nat.le_trans h' h⟩

/-- Model of `get_sessions` (`database.py` lines 111–144): one aggregate row per
`chat_sessions` row of the user, ordered by `last_activity` descending
(stable in the physical row order). -/
def get_sessions (db : DB) (uid : Nat) : List SessionInfo :=
  if uid == 0 then []
  else
    ((db.chat_sessions.filter (fun s => s.user_id == uid)).map
      (sessionInfoOf db)).insertionSort laterFirst

/-- Model of `title or None` from `upsert_session_title`: Python's `or` turns a
falsy (empty) title into `None` (SQL NULL). -/
def titleOrNone (title : String) : Option String :=
  if title == "" then none else some title

/-- Model of `upsert_session_title` (`database.py` lines 148–169): `False` on falsy
user_id/session_id; otherwise `INSERT OR IGNORE INTO chat_sessions
(user_id, session_id, title)` followed by an unconditional `UPDATE
chat_sessions SET title = ?` on the pair, then `True`. -/
def upsert_session_title (db : DB) (uid : Nat) (sid title : String) (now : Nat) :
    Bool × DB :=
  if uid == 0 || sid == "" then (false, db)
  else
    let srow : SessionRow :=
      { id := db.nextSessionRowId, user_id := uid, session_id := sid,
        title := titleOrNone title, created_at := now }
    let db :=
      if db.chat_sessions.any (sessMatch uid sid) then db
      else
        { db with
          chat_sessions := db.chat_sessions ++ [srow],
          nextSessionRowId := db.nextSessionRowId + 1 }
    (true,
     { db with
       chat_sessions := db.chat_sessions.map fun s =>
         if sessMatch uid sid s then { s with title := titleOrNone title } else s })

/-- Model of `delete_session` (`database.py` lines 173–195): 0 on falsy arguments;
otherwise `DELETE FROM chats WHERE ...` (its `rowcount` is the returned
value) followed by `DELETE FROM chat_sessions WHERE ...`. -/
def delete_session (db : DB) (uid : Nat) (sid : String) : Nat × DB :=
  if uid == 0 || sid == "" then (0, db)
  else
    let deleted := (db.chats.filter (chatMatch uid sid)).length
    (deleted,
     { db with
       chats := db.chats.filter (fun c => !chatMatch uid sid c),
       chat_sessions := db.chat_sessions.filter (fun s => !sessMatch uid sid s) })

/-! ### `app.py` endpoints

JSON bodies are modelled with the fields the endpoints read, an absent
field being `none` (`data.get(...) or ""` maps `none` to `""`). -/

/-- The `{success, message}` payload of `/register` and `/login`. -/
structure ApiResult where
  success : Bool
  message : String
deriving Repr, DecidableEq

/-- Model of `register` (`app.py` lines 131–156): strip the three fields, reject
empties, then `INSERT INTO users`; a `UNIQUE` violation on username or
email raises `sqlite3.IntegrityError`, answered with the fixed message. -/
def register (db : DB) (username0 email0 password0 : Option String) :
    ApiResult × DB :=
  let username := pyStrip (username0.getD "")
  let email := pyStrip (email0.getD "")
  let password := pyStrip (password0.getD "")
  if username == "" || email == "" || password == "" then
    ({ success := false, message := "All fields are required." }, db)
  else
    let hashed := hash_password password
    if db.users.any (fun u => u.username == username || u.email == email) then
      ({ success := false, message := "Username or email already exists." }, db)
    else
      ({ success := true, message := "Registration successful." },
       { db with
         users := db.users ++
           [{ id := db.nextUserId, username := username, email := email,
              password := hashed }],
         nextUserId := db.nextUserId + 1 })

/-- Model of `login` (`app.py` lines 160–186): strip the two fields, reject
empties, then `SELECT id FROM users WHERE email = ? AND password = ?`
with the hashed password; success iff `fetchone` found a row. -/
def login (db : DB) (email0 password0 : Option String) : ApiResult :=
  let email := pyStrip (email0.getD "")
  let password := pyStrip (password0.getD "")
  if email == "" || password == "" then
    { success := false, message := "Please enter both email and password." }
  else
    let hashed := hash_password password
    match db.users.filter (fun u => u.email == email && u.password == hashed) with
    | [] => { success := false, message := "UserName/Password incorrect." }
    | _ :: _ => { success := true, message := "Login successful." }

/-- One entry of the `history` array of a `/chat` request. -/
structure HistoryMsg where
  role : String
  text : String
deriving Repr, DecidableEq

/-- The JSON body of a `/chat` request (all fields optional). -/
structure ChatRequest where
  message : Option String
  history : List HistoryMsg
  email : Option String
  session_id : Option String
deriving Repr, DecidableEq

/-- The HTTP reply of `/chat`: `jsonify` always answers with status 200;
`session_id := none` models a JSON body without a `session_id` key. -/
structure ChatResponse where
  status : Nat
  answer : String
  session_id : Option String
deriving Repr, DecidableEq

/-- A single-quote character, used inside the system prompt. -/
def sq : String := String.singleton (Char.ofNat 39)

/-- The system message of `app.py` lines 77–88 (fixed instructions plus
the grounding document). -/
def systemPrompt (knowledge : String) : String :=
  "You are an intelligent academic assistant for the Arab Open University. " ++
  "Answer only based on the following text. " ++
  "If no relevant information is found, reply with: " ++
  sq ++ "Sorry, there is no available information about this question." ++ sq ++
  "\n\n" ++ knowledge

/-- The message list `chat` sends to the collaborator (`app.py` lines
77–98): the system message, the caller-supplied history with any
non-"user" role mapped to "assistant", then the question as a final
"user" message. -/
def chatMessages (req : ChatRequest) (knowledge : String) : List (String × String) :=
  ("system", systemPrompt knowledge) ::
    (req.history.map fun m =>
      (if m.role == "user" then "user" else "assistant", m.text)) ++
    [("user", pyStrip (req.message.getD ""))]

/-- Model of `chat` (`app.py` lines 60–127).  External pieces are parameters: the
fresh `str(uuid4())` value, the text returned by `load_knowledge()`, and
the LLM collaborator `llm` (`openai.ChatCompletion.create`), which either
returns the completion text or fails with the text of the raised
exception (`str(e)`).  The whole `try` body only raises through `llm`
here, since the store operations are total. -/
def chat (db : DB) (req : ChatRequest) (freshId : String) (knowledge : String)
    (llm : List (String × String) → Except String String) (now : Nat) :
    ChatResponse × DB :=
  let question := pyStrip (req.message.getD "")
  let user_email := pyStrip (req.email.getD "")
  let session_id := pyStrip (req.session_id.getD "")
  if question == "" then
    ({ status := 200, answer := "Please enter your question.", session_id := none }, db)
  else
    let session_id := if session_id == "" then freshId else session_id
    match llm (chatMessages req knowledge) with
    | Except.ok raw =>
        let answer := pyStrip raw
        let db :=
          if user_email == "" then db
          else
            match get_user_id db user_email with
            | some uid =>
                if uid == 0 then db
                else
                  save_message (save_message db uid session_id "user" question now)
                    uid session_id "assistant" answer now
            | none => db
        ({ status := 200, answer := answer, session_id := some session_id }, db)
    | Except.error e =>
        ({ status := 200, answer := "Error during processing: " ++ e,
           session_id := some session_id }, db)

/-! ### Connection lifecycle of the store operations (`database.py`)

Every store operation has the same shape: an early `return` on falsy
arguments before any connection is made, then `sqlite3.connect`, the SQL
statements, and `conn.close()` as the last statement — with no
`try/finally` and no context manager.  The trace of connection events an
execution produces is modelled per operation, with a flag saying whether
one of the SQL statements raises (in which case the exception propagates
immediately and the remaining statements, `conn.close()` included, do not
run). -/

inductive ConnEvent where
  | openConn
  | closeConn
deriving Repr, DecidableEq

/-- The common statement shape shared by all six operations. -/
def connShape (validArgs storageRaises : Bool) : List ConnEvent :=
  if !validArgs then []
  else if storageRaises then [ConnEvent.openConn]
  else [ConnEvent.openConn, ConnEvent.closeConn]

inductive StoreOp where
  | get_user_id
  | save_message
  | get_chat_history
  | get_sessions
  | upsert_session_title
  | delete_session
deriving Repr, DecidableEq

/-- Connection-event trace of one store operation.  Each arm follows the
text of the corresponding function: `get_user_id` lines 58–67,
`save_message` lines 71–91, `get_chat_history` lines 95–107,
`get_sessions` lines 111–144, `upsert_session_title` lines 148–169,
`delete_session` lines 173–195 — none of them wraps the statements in a
`try/finally`, so `conn.close()` is only reached when no statement raised. -/
def opConnTrace (op : StoreOp) (validArgs storageRaises : Bool) : List ConnEvent :=
  match op with
  | StoreOp.get_user_id => connShape validArgs storageRaises
  | StoreOp.save_message => connShape validArgs storageRaises
  | StoreOp.get_chat_history => connShape validArgs storageRaises
  | StoreOp.get_sessions => connShape validArgs storageRaises
  | StoreOp.upsert_session_title => connShape validArgs storageRaises
  | StoreOp.delete_session => connShape validArgs storageRaises

/-- A trace releases every connection it acquired. -/
def balancedTrace (t : List ConnEvent) : Prop :=
  t.count ConnEvent.openConn = t.count ConnEvent.closeConn

instance (t : List ConnEvent) : Decidable (balancedTrace t) :=
  Nat.decEq _ _

/-! ### Reachable states and their invariants -/

/-- Database states reachable from a fresh database through the mutating
operations (`/chat` only mutates through `save_message`). -/
inductive Reachable : DB → Prop where
  | init : Reachable init_db
  | save (db : DB) (uid : Nat) (sid role msg : String) (now : Nat) :
      Reachable db → Reachable (save_message db uid sid role msg now)
  | upsert (db : DB) (uid : Nat) (sid title : String) (now : Nat) :
      Reachable db → Reachable (upsert_session_title db uid sid title now).2
  | del (db : DB) (uid : Nat) (sid : String) :
      Reachable db → Reachable (delete_session db uid sid).2
  | reg (db : DB) (u e p : Option String) :
      Reachable db → Reachable (register db u e p).2

/-- No two `chat_sessions` rows share a (user_id, session_id) pair — the
`UNIQUE (user_id, session_id)` constraint. -/
def distinctSessionKeys (l : List SessionRow) : Prop :=
  l.Pairwise fun a b => a.user_id ≠ b.user_id ∨ a.session_id ≠ b.session_id

/-- Invariants of every reachable database state. -/
structure Inv (db : DB) : Prop where
  distinct : distinctSessionKeys db.chat_sessions
  covered : ∀ c ∈ db.chats, ∃ s ∈ db.chat_sessions,
    s.user_id = c.user_id ∧ s.session_id = c.session_id
  sorted : db.chats.Pairwise fun a b => a.id < b.id
  bound : ∀ c ∈ db.chats, c.id < db.nextChatId

theorem sessionRows_length_le_one {l : List SessionRow} (h : distinctSessionKeys l)
    (uid : Nat) (sid : String) : (l.filter (sessMatch uid sid)).length ≤ 1 := by
  induction l with
  | nil => simp
  | cons a l ih =>
      rw [distinctSessionKeys, List.pairwise_cons] at h
      by_cases ha : sessMatch uid sid a
      · have hnil : l.filter (sessMatch uid sid) = [] := by
          rw [List.filter_eq_nil_iff]
          intro b hb hbm
          simp [sessMatch] at ha hbm
          rcases h.1 b hb with hne | hne
          · exact hne (ha.1.trans hbm.1.symm)
          · exact hne (ha.2.trans hbm.2.symm)
        rw [List.filter_cons_of_pos ha, hnil]
        simp
      · rw [List.filter_cons_of_neg ha]
        exact ih h.2

theorem inv_init : Inv init_db := by
  constructor <;> simp [init_db, distinctSessionKeys]

theorem inv_save (db : DB) (uid : Nat) (sid role msg : String) (now : Nat)
    (h : Inv db) : Inv (save_message db uid sid role msg now) := by
  unfold save_message
  by_cases hg : uid == 0 || sid == "" || msg == ""
  · simpa [hg] using h
  · simp only [hg, if_false, Bool.false_eq_true]
    by_cases hex : db.chat_sessions.any (sessMatch uid sid)
    · simp only [hex, if_true]
      refine ⟨h.distinct, ?_, ?_, ?_⟩
      · intro c hc
        rcases List.mem_append.mp hc with hc | hc
        · exact h.covered c hc
        · simp at hc
          subst hc
          rcases List.any_eq_true.mp hex with ⟨s, hs, hsm⟩
          simp [sessMatch] at hsm
          exact ⟨s, hs, by simp [hsm.1, hsm.2]⟩
      · refine List.pairwise_append.mpr ⟨h.sorted, by simp, ?_⟩
        intro a ha b hb
        simp at hb
        subst hb
        exact h.bound a ha
      · intro c hc
        rcases List.mem_append.mp hc with hc | hc
        · exact Nat.lt_succ_of_lt (h.bound c hc)
        · simp at hc; subst hc; simp
    · simp only [hex, if_false, Bool.false_eq_true]
      have hnone : ∀ s ∈ db.chat_sessions, ¬ sessMatch uid sid s := by
        intro s hs hsm
        exact hex (List.any_eq_true.mpr ⟨s, hs, hsm⟩)
      refine ⟨?_, ?_, ?_, ?_⟩
      · refine List.pairwise_append.mpr ⟨h.distinct, by simp [distinctSessionKeys], ?_⟩
        intro a ha b hb
        simp at hb
        subst hb
        have := hnone a ha
        simp [sessMatch] at this
        by_cases hu : a.user_id = uid
        · exact Or.inr (by simpa [hu] using this hu)
        · exact Or.inl (by simpa using hu)
      · intro c hc
        rcases List.mem_append.mp hc with hc | hc
        · rcases h.covered c hc with ⟨s, hs, hks⟩
          exact ⟨s, List.mem_append_left _ hs, hks⟩
        · simp at hc
          subst hc
          refine ⟨_, List.mem_append_right _ (List.mem_singleton_self _), by simp⟩
      · refine List.pairwise_append.mpr ⟨h.sorted, by simp, ?_⟩
        intro a ha b hb
        simp at hb
        subst hb
        exact h.bound a ha
      · intro c hc
        rcases List.mem_append.mp hc with hc | hc
        · exact Nat.lt_succ_of_lt (h.bound c hc)
        · simp at hc; subst hc; simp

theorem inv_upsert (db : DB) (uid : Nat) (sid title : String) (now : Nat)
    (h : Inv db) : Inv (upsert_session_title db uid sid title now).2 := by
  unfold upsert_session_title
  by_cases hg : uid == 0 || sid == ""
  · simpa [hg] using h
  · simp only [hg, if_false, Bool.false_eq_true]
    have hkey : ∀ s : SessionRow,
        ((if sessMatch uid sid s then { s with title := titleOrNone title } else s) :
          SessionRow).user_id = s.user_id ∧
        ((if sessMatch uid sid s then { s with title := titleOrNone title } else s) :
          SessionRow).session_id = s.session_id := by
      intro s
      by_cases hm : sessMatch uid sid s <;> simp [hm]
    by_cases hex : db.chat_sessions.any (sessMatch uid sid)
    · simp only [hex, if_true]
      refine ⟨?_, ?_, h.sorted, h.bound⟩
      · rw [distinctSessionKeys, List.pairwise_map]
        refine h.distinct.imp ?_
        intro a b hab
        rcases hab with h1 | h1
        · exact Or.inl (by rw [(hkey a).1, (hkey b).1]; exact h1)
        · exact Or.inr (by rw [(hkey a).2, (hkey b).2]; exact h1)
      · intro c hc
        rcases h.covered c hc with ⟨s, hs, hks⟩
        refine ⟨_, List.mem_map_of_mem _ hs, ?_⟩
        rw [(hkey s).1, (hkey s).2]
        exact hks
    · simp only [hex, if_false, Bool.false_eq_true]
      have hnone : ∀ s ∈ db.chat_sessions, ¬ sessMatch uid sid s := by
        intro s hs hsm
        exact hex (List.any_eq_true.mpr ⟨s, hs, hsm⟩)
      have hdist : distinctSessionKeys (db.chat_sessions ++
          [{ id := db.nextSessionRowId, user_id := uid, session_id := sid,
             title := titleOrNone title, created_at := now }]) := by
        refine List.pairwise_append.mpr ⟨h.distinct, by simp [distinctSessionKeys], ?_⟩
        intro a ha b hb
        simp at hb
        subst hb
        have := hnone a ha
        simp [sessMatch] at this
        by_cases hu : a.user_id = uid
        · exact Or.inr (by simpa [hu] using this hu)
        · exact Or.inl (by simpa using hu)
      refine ⟨?_, ?_, h.sorted, h.bound⟩
      · rw [distinctSessionKeys, List.pairwise_map]
        refine hdist.imp ?_
        intro a b hab
        rcases hab with h1 | h1
        · exact Or.inl (by rw [(hkey a).1, (hkey b).1]; exact h1)
        · exact Or.inr (by rw [(hkey a).2, (hkey b).2]; exact h1)
      · intro c hc
        rcases h.covered c hc with ⟨s, hs, hks⟩
        refine ⟨_, List.mem_map_of_mem _ (List.mem_append_left _ hs), ?_⟩
        rw [(hkey s).1, (hkey s).2]
        exact hks

theorem inv_del (db : DB) (uid : Nat) (sid : String) (h : Inv db) :
    Inv (delete_session db uid sid).2 := by
  unfold delete_session
  by_cases hg : uid == 0 || sid == ""
  · simpa [hg] using h
  · simp only [hg, if_false, Bool.false_eq_true]
    refine ⟨List.Pairwise.sublist (List.filter_sublist _) h.distinct, ?_,
            List.Pairwise.sublist (List.filter_sublist _) h.sorted, ?_⟩
    · intro c hc
      rw [List.mem_filter] at hc
      rcases h.covered c hc.1 with ⟨s, hs, hks⟩
      refine ⟨s, List.mem_filter.mpr ⟨hs, ?_⟩, hks⟩
      simp only [Bool.not_eq_eq_eq_not, Bool.not_true]
      by_contra hsm
      have hsm' : sessMatch uid sid s = true := by
        cases hx : sessMatch uid sid s
        · exact absurd hx hsm
        · rfl
      simp [sessMatch] at hsm'
      have : chatMatch uid sid c = true := by
        simp [chatMatch, ← hks.1, ← hks.2, hsm'.1, hsm'.2]
      simp [this] at hc
    · intro c hc
      rw [List.mem_filter] at hc
      exact h.bound c hc.1

theorem inv_reg (db : DB) (u e p : Option String) (h : Inv db) :
    Inv (register db u e p).2 := by
  unfold register
  by_cases hg : pyStrip (u.getD "") == "" || pyStrip (e.getD "") == "" ||
      pyStrip (p.getD "") == ""
  · simpa [hg] using h
  · simp only [hg, if_false, Bool.false_eq_true]
    by_cases hex : db.users.any fun x =>
        x.username == pyStrip (u.getD "") || x.email == pyStrip (e.getD "")
    · simpa [hex] using h
    · simp only [hex, if_false, Bool.false_eq_true]
      exact ⟨h.distinct, h.covered, h.sorted, h.bound⟩

theorem reachable_inv {db : DB} (h : Reachable db) : Inv db := by
  induction h with
  | init => exact inv_init
  | save db uid sid role msg now _ ih => exact inv_save db uid sid role msg now ih
  | upsert db uid sid title now _ ih => exact inv_upsert db uid sid title now ih
  | del db uid sid _ ih => exact inv_del db uid sid ih
  | reg db u e p _ ih => exact inv_reg db u e p ih

/-! ### Claim theorems -/

/-- C2: for every (user_id, session_id) whose session holds N messages,
`delete_session` removes all N matching chats rows and the chat_sessions
row (whether or not messages existed) and returns N; calling it again on
the now-absent session returns 0, changes nothing, and raises no error
(the operation is total). -/
theorem delete_session_count_and_idempotent (db : DB) (uid : Nat) (sid : String)
    (h1 : uid ≠ 0) (h2 : sid ≠ "") :
    (delete_session db uid sid).1 = (sessionChats db uid sid).length ∧
    sessionChats (delete_session db uid sid).2 uid sid = [] ∧
    sessionRows (delete_session db uid sid).2 uid sid = [] ∧
    (delete_session (delete_session db uid sid).2 uid sid).1 = 0 ∧
    (delete_session (delete_session db uid sid).2 uid sid).2 =
      (delete_session db uid sid).2 := by
  have hg : (uid == 0 || sid == "") = false := by simp [h1, h2]
  refine ⟨?_, ?_, ?_, ?_, ?_⟩
  · unfold delete_session
    simp only [hg, Bool.false_eq_true, if_false]
    rfl
  · unfold delete_session
    simp only [hg, Bool.false_eq_true, if_false, sessionChats, List.filter_filter]
    rw [List.filter_eq_nil_iff]
    intro c _
    simp
  · unfold delete_session
    simp only [hg, Bool.false_eq_true, if_false, sessionRows, List.filter_filter]
    rw [List.filter_eq_nil_iff]
    intro s _
    simp
  · unfold delete_session
    simp only [hg, Bool.false_eq_true, if_false, List.filter_filter]
    rw [List.length_eq_zero, List.filter_eq_nil_iff]
    intro c _
    simp
  · unfold delete_session
    simp only [hg, Bool.false_eq_true, if_false, List.filter_filter]
    have hc : ∀ c : ChatRow, (!chatMatch uid sid c && !chatMatch uid sid c) =
        !chatMatch uid sid c := by intro c; cases chatMatch uid sid c <;> rfl
    have hs : ∀ s : SessionRow, (!sessMatch uid sid s && !sessMatch uid sid s) =
        !sessMatch uid sid s := by intro s; cases sessMatch uid sid s <;> rfl
    simp only [hc, hs]

/-- C2 witness: a database with one session of two messages. -/
theorem delete_session_count_and_idempotent_witness :
    (delete_session
      { users := [], nextUserId := 1, nextChatId := 3, nextSessionRowId := 2,
        chats := [{ id := 1, user_id := 1, session_id := "s", role := "user",
                    message := "hi", created_at := 0 },
                  { id := 2, user_id := 1, session_id := "s", role := "assistant",
                    message := "hello", created_at := 1 }],
        chat_sessions := [{ id := 1, user_id := 1, session_id := "s",
                            title := none, created_at := 0 }] } 1 "s").1 = 2 := by
  have h := delete_session_count_and_idempotent
    { users := [], nextUserId := 1, nextChatId := 3, nextSessionRowId := 2,
      chats := [{ id := 1, user_id := 1, session_id := "s", role := "user",
                  message := "hi", created_at := 0 },
                { id := 2, user_id := 1, session_id := "s", role := "assistant",
                  message := "hello", created_at := 1 }],
      chat_sessions := [{ id := 1, user_id := 1, session_id := "s",
                          title := none, created_at := 0 }] } 1 "s"
    (by decide) (by decide)
  rw [h.1]
  decide

/-- C10: `delete_session(user_id, session_id)` only touches the chats and
chat_sessions rows of exactly that (user_id, session_id) pair: rows of any
other pair — another user, or another session of the same user, or another
user sharing the same session_id string — and the users table are
unchanged. -/
theorem delete_session_frame (db : DB) (uid uid' : Nat) (sid sid' : String)
    (h : ¬(uid' = uid ∧ sid' = sid)) :
    sessionChats (delete_session db uid sid).2 uid' sid' = sessionChats db uid' sid' ∧
    sessionRows (delete_session db uid sid).2 uid' sid' = sessionRows db uid' sid' ∧
    (delete_session db uid sid).2.users = db.users := by
  by_cases hg : (uid == 0 || sid == "") = true
  · unfold delete_session
    simp [hg]
  · rw [Bool.not_eq_true] at hg
    refine ⟨?_, ?_, ?_⟩
    · unfold delete_session
      simp only [hg, Bool.false_eq_true, if_false, sessionChats, List.filter_filter]
      apply List.filter_congr
      intro c _
      cases hm : chatMatch uid' sid' c
      · simp
      · have hfalse : chatMatch uid sid c = false := by
          by_contra hx
          rw [Bool.not_eq_false] at hx
          simp only [chatMatch, Bool.and_eq_true, beq_iff_eq] at hm hx
          exact h ⟨hm.1 ▸ hx.1, hm.2 ▸ hx.2⟩
        rw [hfalse]
        rfl
    · unfold delete_session
      simp only [hg, Bool.false_eq_true, if_false, sessionRows, List.filter_filter]
      apply List.filter_congr
      intro s _
      cases hm : sessMatch uid' sid' s
      · simp
      · have hfalse : sessMatch uid sid s = false := by
          by_contra hx
          rw [Bool.not_eq_false] at hx
          simp only [sessMatch, Bool.and_eq_true, beq_iff_eq] at hm hx
          exact h ⟨hm.1 ▸ hx.1, hm.2 ▸ hx.2⟩
        rw [hfalse]
        rfl
    · unfold delete_session
      simp only [hg, Bool.false_eq_true, if_false]

/-- C10 witness: deleting user 1's session "s" leaves user 2's rows and a
same-named session of user 2 untouched. -/
theorem delete_session_frame_witness :
    sessionChats (delete_session
      { users := [], nextUserId := 1, nextChatId := 2, nextSessionRowId := 3,
        chats := [{ id := 1, user_id := 2, session_id := "s", role := "user",
                    message := "hi", created_at := 0 }],
        chat_sessions := [{ id := 1, user_id := 1, session_id := "s",
                            title := none, created_at := 0 },
                          { id := 2, user_id := 2, session_id := "s",
                            title := none, created_at := 0 }] } 1 "s").2 2 "s" =
      sessionChats
      { users := [], nextUserId := 1, nextChatId := 2, nextSessionRowId := 3,
        chats := [{ id := 1, user_id := 2, session_id := "s", role := "user",
                    message := "hi", created_at := 0 }],
        chat_sessions := [{ id := 1, user_id := 1, session_id := "s",
                            title := none, created_at := 0 },
                          { id := 2, user_id := 2, session_id := "s",
                            title := none, created_at := 0 }] } 2 "s" :=
  (delete_session_frame
    { users := [], nextUserId := 1, nextChatId := 2, nextSessionRowId := 3,
      chats := [{ id := 1, user_id := 2, session_id := "s", role := "user",
                  message := "hi", created_at := 0 }],
      chat_sessions := [{ id := 1, user_id := 1, session_id := "s",
                          title := none, created_at := 0 },
                        { id := 2, user_id := 2, session_id := "s",
                          title := none, created_at := 0 }] } 1 2 "s" "s"
    (by decide)).1

/-- C9 counterexample: on the exit path where a storage statement of
`save_message` raises, the connection is opened but never closed — there
is no `try/finally` around the statements, so `conn.close()` is skipped;
the claim that every store operation releases its connection on every
exit path, error paths included, fails on the code. -/
theorem connection_not_closed_on_error :
    opConnTrace StoreOp.save_message true true = [ConnEvent.openConn] ∧
    ¬ balancedTrace (opConnTrace StoreOp.save_message true true) := by
  decide

/-- C9 amended: every store operation opens its connection inside the
call, after the early validation return; on non-raising paths the
connection is closed before returning, but on a path where a storage
statement raises, the explicit `conn.close()` is skipped and the
exception propagates with the connection still open. -/
theorem connection_lifecycle_amended (op : StoreOp) (validArgs : Bool) :
    balancedTrace (opConnTrace op validArgs false) ∧
    opConnTrace op true true = [ConnEvent.openConn] := by
  cases op <;> cases validArgs <;> exact ⟨by decide, by decide⟩

/-- Effect of one valid `upsert_session_title` call on the rows of the
targeted pair, given the UNIQUE constraint held before the call. -/
theorem upsert_valid_rows (db : DB) (uid : Nat) (sid title : String) (now : Nat)
    (hd : distinctSessionKeys db.chat_sessions) (h1 : uid ≠ 0) (h2 : sid ≠ "") :
    ∃ r : SessionRow,
      sessionRows (upsert_session_title db uid sid title now).2 uid sid = [r] ∧
      r.title = titleOrNone title := by
  have hg : (uid == 0 || sid == "") = false := by simp [h1, h2]
  unfold upsert_session_title
  simp only [hg, Bool.false_eq_true, if_false]
  have hkey : ∀ s : SessionRow,
      sessMatch uid sid ((if sessMatch uid sid s then
        { s with title := titleOrNone title } else s) : SessionRow) =
      sessMatch uid sid s := by
    intro s
    by_cases hm : sessMatch uid sid s = true
    · rw [if_pos hm]
      rfl
    · rw [if_neg hm]
  by_cases hex : db.chat_sessions.any (sessMatch uid sid)
  · simp only [hex, if_true, sessionRows]
    rw [List.filter_map]
    have hfe : ((fun s => sessMatch uid sid s) ∘
        (fun s : SessionRow => if sessMatch uid sid s then
          { s with title := titleOrNone title } else s)) =
        fun s : SessionRow => sessMatch uid sid s := by
      funext s
      exact hkey s
    rw [hfe]
    rcases List.any_eq_true.mp hex with ⟨s0, hs0, hs0m⟩
    have hne : db.chat_sessions.filter (sessMatch uid sid) ≠ [] := by
      intro hnil
      rw [List.filter_eq_nil_iff] at hnil
      exact hnil s0 hs0 hs0m
    have hlen := sessionRows_length_le_one hd uid sid
    match hfl : db.chat_sessions.filter (sessMatch uid sid), hne, hlen with
    | [r0], _, _ =>
        have hm0 : sessMatch uid sid r0 = true :=
          (List.mem_filter.mp (hfl ▸ List.mem_singleton_self r0)).2
        refine ⟨{ r0 with title := titleOrNone title }, ?_, rfl⟩
        simp [hm0]
    | r0 :: r1 :: rs, _, hl => simp at hl
  · simp only [hex, if_false, Bool.false_eq_true, sessionRows]
    rw [List.filter_map]
    have hfe : ((fun s => sessMatch uid sid s) ∘
        (fun s : SessionRow => if sessMatch uid sid s then
          { s with title := titleOrNone title } else s)) =
        fun s : SessionRow => sessMatch uid sid s := by
      funext s
      exact hkey s
    rw [hfe]
    have hnil : db.chat_sessions.filter (sessMatch uid sid) = [] := by
      rw [List.filter_eq_nil_iff]
      intro s hs hsm
      exact hex (List.any_eq_true.mpr ⟨s, hs, hsm⟩)
    have hsm : sessMatch uid sid
        ({ id := db.nextSessionRowId, user_id := uid, session_id := sid,
           title := titleOrNone title, created_at := now } : SessionRow) = true := by
      simp [sessMatch]
    rw [List.filter_append, hnil]
    simp only [List.filter_cons, hsm, if_true, List.filter_nil, List.nil_append]
    exact ⟨_, rfl, by simp [hsm]⟩

/-- C3: `upsert_session_title` returns false iff user_id or session_id is
absent; otherwise it returns true and leaves exactly one chat_sessions
row for the pair, whose title is the given title (empty stored as NULL,
not as the empty string); a second call with another title overwrites the
title and still leaves exactly one row for the pair. -/
theorem upsert_session_title_spec (db : DB) (hr : Reachable db) (uid : Nat)
    (sid title title2 : String) (now now2 : Nat) :
    ((upsert_session_title db uid sid title now).1 = false ↔ (uid = 0 ∨ sid = "")) ∧
    (uid ≠ 0 → sid ≠ "" →
      (∃ r : SessionRow,
        sessionRows (upsert_session_title db uid sid title now).2 uid sid = [r] ∧
        r.title = (if title = "" then none else some title)) ∧
      (∃ r : SessionRow,
        sessionRows (upsert_session_title
          (upsert_session_title db uid sid title now).2 uid sid title2 now2).2
          uid sid = [r] ∧
        r.title = (if title2 = "" then none else some title2))) := by
  constructor
  · constructor
    · intro hf
      by_contra hne
      push_neg at hne
      have hg : (uid == 0 || sid == "") = false := by simp [hne.1, hne.2]
      unfold upsert_session_title at hf
      simp [hg] at hf
    · intro hor
      have hg : (uid == 0 || sid == "") = true := by
        rcases hor with h | h <;> simp [h]
      unfold upsert_session_title
      simp [hg]
  · intro h1 h2
    have hd := (reachable_inv hr).distinct
    have hd2 := (reachable_inv (Reachable.upsert db uid sid title now hr)).distinct
    refine ⟨?_, ?_⟩
    · simpa [titleOrNone] using upsert_valid_rows db uid sid title now hd h1 h2
    · simpa [titleOrNone] using
        upsert_valid_rows (upsert_session_title db uid sid title now).2
          uid sid title2 now2 hd2 h1 h2

/-- C3 witness: on a fresh database, setting a title twice for user 1,
session "s". -/
theorem upsert_session_title_spec_witness :
    ((upsert_session_title init_db 1 "s" "first" 0).1 = false ↔ ((1 : Nat) = 0 ∨ "s" = "")) ∧
    ((1 : Nat) ≠ 0 → "s" ≠ "" →
      (∃ r : SessionRow,
        sessionRows (upsert_session_title init_db 1 "s" "first" 0).2 1 "s" = [r] ∧
        r.title = (if "first" = "" then none else some "first")) ∧
      (∃ r : SessionRow,
        sessionRows (upsert_session_title
          (upsert_session_title init_db 1 "s" "first" 0).2 1 "s" "second" 1).2
          1 "s" = [r] ∧
        r.title = (if "second" = "" then none else some "second"))) :=
  upsert_session_title_spec init_db Reachable.init 1 "s" "first" "second" 0 1

/-- In a users table whose emails are pairwise distinct (the `UNIQUE`
constraint on `users.email`), at most one row can match the login
`SELECT`. -/
theorem loginRows_length_le_one {l : List UserRow}
    (h : l.Pairwise fun a b => a.email ≠ b.email) (email pw : String) :
    (l.filter fun u => u.email == email && u.password == pw).length ≤ 1 := by
  induction l with
  | nil => simp
  | cons a l ih =>
      rw [List.pairwise_cons] at h
      by_cases ha : (a.email == email && a.password == pw) = true
      · have hnil : (l.filter fun u => u.email == email && u.password == pw) = [] := by
          rw [List.filter_eq_nil_iff]
          intro b hb hbm
          simp only [Bool.and_eq_true, beq_iff_eq] at ha hbm
          exact h.1 b hb (ha.1.trans hbm.1.symm)
        rw [List.filter_cons_of_pos
          (p := fun u : UserRow => u.email == email && u.password == pw) ha, hnil]
        simp
      · rw [List.filter_cons_of_neg
          (p := fun u : UserRow => u.email == email && u.password == pw) ha]
        exact ih h.2

/-- The shape `login` reduces to once the two inputs pass validation. -/
theorem login_reduce (db : DB) (email password : String)
    (he : pyStrip email = email) (hp : pyStrip password = password)
    (he0 : email ≠ "") (hp0 : password ≠ "") :
    login db (some email) (some password) =
      (match db.users.filter fun u =>
          u.email == email && u.password == hash_password password with
       | [] => { success := false, message := "UserName/Password incorrect." }
       | _ :: _ => { success := true, message := "Login successful." }) := by
  unfold login
  simp only [Option.getD_some, he, hp]
  rw [if_neg]
  simp [he0, hp0]

/-- C5: `login(email, password)` succeeds iff exactly one stored user row
matches the pair (email, hex-encoded SHA-256 of password); and the
failure message for an unknown email is character-for-character the
message for a known email with a wrong password. -/
theorem login_spec (db : DB)
    (hu : db.users.Pairwise fun a b => a.email ≠ b.email)
    (email password : String)
    (he : pyStrip email = email) (hp : pyStrip password = password)
    (he0 : email ≠ "") (hp0 : password ≠ "") :
    ((login db (some email) (some password)).success = true ↔
      (db.users.filter fun u =>
        u.email == email && u.password == hash_password password).length = 1) ∧
    (∀ (db2 : DB) (email2 password2 : String),
      pyStrip email2 = email2 → pyStrip password2 = password2 →
      email2 ≠ "" → password2 ≠ "" →
      (∀ u ∈ db.users, u.email ≠ email) →
      (∃ u ∈ db2.users, u.email = email2) →
      (∀ u ∈ db2.users, ¬(u.email = email2 ∧ u.password = hash_password password2)) →
      (login db (some email) (some password)).success = false ∧
      (login db2 (some email2) (some password2)).success = false ∧
      (login db (some email) (some password)).message =
        (login db2 (some email2) (some password2)).message) := by
  rw [login_reduce db email password he hp he0 hp0]
  constructor
  · match hfl : db.users.filter fun u =>
        u.email == email && u.password == hash_password password with
    | [] =>
        rw [hfl]
        simp
    | u0 :: us =>
        have hle := loginRows_length_le_one hu email (hash_password password)
        rw [hfl] at hle
        rw [hfl]
        simp only [List.length_cons] at hle ⊢
        constructor
        · intro _
          omega
        · intro _
          trivial
  · intro db2 email2 password2 he2 hp2 he20 hp20 hunknown _hknown hwrong
    rw [login_reduce db2 email2 password2 he2 hp2 he20 hp20]
    have hnil1 : (db.users.filter fun u =>
        u.email == email && u.password == hash_password password) = [] := by
      rw [List.filter_eq_nil_iff]
      intro u hu' hm
      simp only [Bool.and_eq_true, beq_iff_eq] at hm
      exact hunknown u hu' hm.1
    have hnil2 : (db2.users.filter fun u =>
        u.email == email2 && u.password == hash_password password2) = [] := by
      rw [List.filter_eq_nil_iff]
      intro u hu' hm
      simp only [Bool.and_eq_true, beq_iff_eq] at hm
      exact hwrong u hu' hm
    rw [hnil1, hnil2]
    exact ⟨rfl, rfl, rfl⟩

/-- C5 witness: a store with the single user alice; the credentials
(a@x.com, pw1) match exactly one row, so login succeeds. -/
theorem login_spec_witness :
    ((login
      { users := [{ id := 1, username := "alice", email := "a@x.com",
                    password := hash_password "pw1" }],
        chats := [], chat_sessions := [],
        nextUserId := 2, nextChatId := 1, nextSessionRowId := 1 }
      (some "a@x.com") (some "pw1")).success = true ↔
      (({ users := [{ id := 1, username := "alice", email := "a@x.com",
                      password := hash_password "pw1" }],
          chats := [], chat_sessions := [],
          nextUserId := 2, nextChatId := 1, nextSessionRowId := 1 } : DB).users.filter
        fun u => u.email == "a@x.com" && u.password == hash_password "pw1").length = 1) :=
  (login_spec
    { users := [{ id := 1, username := "alice", email := "a@x.com",
                  password := hash_password "pw1" }],
      chats := [], chat_sessions := [],
      nextUserId := 2, nextChatId := 1, nextSessionRowId := 1 }
    (by simp) "a@x.com" "pw1" (by decide) (by decide) (by decide) (by decide)).1

/-- C6: `register` fails (success=false) when any of the three fields is
empty or the username or the email already exists; on success the stored
row carries the hex SHA-256 digest of the password, never the plaintext;
re-registering the same email (any username or password) or the same
username (any email or password) then fails. -/
theorem register_spec (db : DB) (username email password : String)
    (hsu : pyStrip username = username) (hse : pyStrip email = email)
    (hsp : pyStrip password = password) :
    ((register db (some username) (some email) (some password)).1.success = true ↔
      (username ≠ "" ∧ email ≠ "" ∧ password ≠ "" ∧
        ∀ x ∈ db.users, x.username ≠ username ∧ x.email ≠ email)) ∧
    ((register db (some username) (some email) (some password)).1.success = true →
      (register db (some username) (some email) (some password)).2.users =
        db.users ++ [{ id := db.nextUserId, username := username, email := email,
                       password := hash_password password }]) ∧
    ((register db (some username) (some email) (some password)).1.success = true →
      (∀ username2 password2 : Option String,
        (register (register db (some username) (some email) (some password)).2
          username2 (some email) password2).1.success = false) ∧
      (∀ email2 password2 : Option String,
        (register (register db (some username) (some email) (some password)).2
          (some username) email2 password2).1.success = false)) := by
  by_cases hg : (username == "" || email == "" || password == "") = true
  · have hred : register db (some username) (some email) (some password) =
        ({ success := false, message := "All fields are required." }, db) := by
      unfold register
      simp only [Option.getD_some, hsu, hse, hsp]
      rw [if_pos hg]
    refine ⟨?_, ?_, ?_⟩
    · rw [hred]
      simp only [Bool.or_eq_true, beq_iff_eq] at hg
      constructor
      · intro hfalse
        simp at hfalse
      · intro hrhs
        rcases hg with (h | h) | h
        · exact absurd h hrhs.1
        · exact absurd h hrhs.2.1
        · exact absurd h hrhs.2.2.1
    · rw [hred]
      intro hfalse
      simp at hfalse
    · rw [hred]
      intro hfalse
      simp at hfalse
  · rw [Bool.not_eq_true] at hg
    have hg' := hg
    simp only [Bool.or_eq_false_iff, beq_eq_false_iff_ne, ne_eq] at hg'
    by_cases hex : (db.users.any fun x =>
        x.username == username || x.email == email) = true
    · have hred : register db (some username) (some email) (some password) =
          ({ success := false, message := "Username or email already exists." }, db) := by
        unfold register
        simp only [Option.getD_some, hsu, hse, hsp]
        rw [if_neg (by simp [hg]), if_pos hex]
      refine ⟨?_, ?_, ?_⟩
      · rw [hred]
        constructor
        · intro hfalse
          simp at hfalse
        · intro hrhs
          rcases List.any_eq_true.mp hex with ⟨x, hx, hxm⟩
          rcases Bool.or_eq_true _ _ |>.mp hxm with hm | hm
          · exact absurd (beq_iff_eq.mp hm) (hrhs.2.2.2 x hx).1
          · exact absurd (beq_iff_eq.mp hm) (hrhs.2.2.2 x hx).2
      · rw [hred]
        intro hfalse
        simp at hfalse
      · rw [hred]
        intro hfalse
        simp at hfalse
    · have hred : register db (some username) (some email) (some password) =
          ({ success := true, message := "Registration successful." },
           { db with
             users := db.users ++
               [{ id := db.nextUserId, username := username, email := email,
                  password := hash_password password }],
             nextUserId := db.nextUserId + 1 }) := by
        unfold register
        simp only [Option.getD_some, hsu, hse, hsp]
        rw [if_neg (by simp [hg]), if_neg hex]
      have hexf : (db.users.any fun x =>
          x.username == username || x.email == email) = false := by
        rw [← Bool.not_eq_true]
        exact hex
      have hall : ∀ x ∈ db.users, x.username ≠ username ∧ x.email ≠ email := by
        intro x hx
        have hx' := List.any_eq_false.mp hexf x hx
        simp only [Bool.or_eq_true, beq_iff_eq, not_or] at hx'
        exact hx'
      refine ⟨?_, ?_, ?_⟩
      · rw [hred]
        constructor
        · intro _
          exact ⟨hg'.1.1, hg'.1.2, hg'.2, hall⟩
        · intro _
          rfl
      · intro _
        rw [hred]
      · intro _
        constructor
        · intro username2 password2
          rw [hred]
          unfold register
          simp only [Option.getD_some, hse]
          by_cases hg2 : (pyStrip (username2.getD "") == "" || email == "" ||
              pyStrip (password2.getD "") == "") = true
          · rw [if_pos hg2]
          · rw [if_neg hg2, if_pos ?hany]
            case hany =>
              apply List.any_eq_true.mpr
              refine ⟨{ id := db.nextUserId, username := username, email := email,
                        password := hash_password password }, ?_, ?_⟩
              · exact List.mem_append_right _ (List.mem_singleton_self _)
              · simp
        · intro email2 password2
          rw [hred]
          unfold register
          simp only [Option.getD_some, hsu]
          by_cases hg2 : (username == "" || pyStrip (email2.getD "") == "" ||
              pyStrip (password2.getD "") == "") = true
          · rw [if_pos hg2]
          · rw [if_neg hg2, if_pos ?hany2]
            case hany2 =>
              apply List.any_eq_true.mpr
              refine ⟨{ id := db.nextUserId, username := username, email := email,
                        password := hash_password password }, ?_, ?_⟩
              · exact List.mem_append_right _ (List.mem_singleton_self _)
              · simp

/-- C6 witness: registering alice on a fresh store succeeds, since all
fields are non-empty and no row collides. -/
theorem register_spec_witness :
    (register init_db (some "alice") (some "a@x.com") (some "pw1")).1.success = true ↔
      ("alice" ≠ "" ∧ "a@x.com" ≠ "" ∧ "pw1" ≠ "" ∧
        ∀ x ∈ init_db.users, x.username ≠ "alice" ∧ x.email ≠ "a@x.com") :=
  (register_spec init_db "alice" "a@x.com" "pw1" (by decide) (by decide) (by decide)).1

/-- C7: a `/chat` request whose message is empty or absent short-circuits
with the fixed text "Please enter your question.", a body without a
session_id field, and no state change (so no session id is allocated);
when the message is non-empty and no session_id was supplied, the
response carries the freshly generated UUID as its session_id. -/
theorem chat_empty_and_fresh_session (db : DB) (req : ChatRequest)
    (freshId knowledge : String)
    (llm : List (String × String) → Except String String) (now : Nat) :
    (pyStrip (req.message.getD "") = "" →
      chat db req freshId knowledge llm now =
        ({ status := 200, answer := "Please enter your question.",
           session_id := none }, db)) ∧
    (pyStrip (req.message.getD "") ≠ "" → pyStrip (req.session_id.getD "") = "" →
      (chat db req freshId knowledge llm now).1.session_id = some freshId) := by
  constructor
  · intro hq
    simp [chat, hq]
  · intro hq hs
    have hqb : (pyStrip (req.message.getD "") == "") = false := by
      simp [hq]
    simp only [chat, hqb, Bool.false_eq_true, if_false, hs]
    cases he : llm (chatMessages req knowledge) with
    | ok raw => simp
    | error e => simp

/-- C7 witness: an absent message short-circuits; a non-empty message
with no session_id gets the fresh UUID back. -/
theorem chat_empty_and_fresh_session_witness :
    (chat init_db
        { message := none, history := [], email := none, session_id := none }
        "uuid-1" "know" (fun _ => Except.ok "hi") 0 =
      ({ status := 200, answer := "Please enter your question.",
         session_id := none }, init_db)) ∧
    (chat init_db
        { message := some "hello", history := [], email := none, session_id := none }
        "uuid-1" "know" (fun _ => Except.ok "hi") 0).1.session_id = some "uuid-1" :=
  ⟨(chat_empty_and_fresh_session init_db
      { message := none, history := [], email := none, session_id := none }
      "uuid-1" "know" (fun _ => Except.ok "hi") 0).1 (by decide),
   (chat_empty_and_fresh_session init_db
      { message := some "hello", history := [], email := none, session_id := none }
      "uuid-1" "know" (fun _ => Except.ok "hi") 0).2 (by decide) (by decide)⟩

/-- C8: `/chat` answers with HTTP status 200 on every input; when the LLM
collaborator fails, the answer field embeds the underlying failure text
after the fixed prefix and the response still carries the session id (the
supplied one, or the fresh one when none was supplied) — never an
HTTP-level error. -/
theorem chat_always_http_200 (db : DB) (req : ChatRequest)
    (freshId knowledge : String)
    (llm : List (String × String) → Except String String) (now : Nat) :
    (chat db req freshId knowledge llm now).1.status = 200 ∧
    (∀ e : String, pyStrip (req.message.getD "") ≠ "" →
      llm (chatMessages req knowledge) = Except.error e →
      (chat db req freshId knowledge llm now).1.answer =
        "Error during processing: " ++ e ∧
      (chat db req freshId knowledge llm now).1.session_id =
        some (if pyStrip (req.session_id.getD "") = "" then freshId
              else pyStrip (req.session_id.getD ""))) := by
  constructor
  · by_cases hq : pyStrip (req.message.getD "") = ""
    · simp [chat, hq]
    · have hqb : (pyStrip (req.message.getD "") == "") = false := by
        simp [hq]
      simp only [chat, hqb, Bool.false_eq_true, if_false]
      cases he : llm (chatMessages req knowledge) with
      | ok raw => simp
      | error e => simp
  · intro e hq herr
    have hqb : (pyStrip (req.message.getD "") == "") = false := by
      simp [hq]
    simp only [chat, hqb, Bool.false_eq_true, if_false]
    rw [herr]
    by_cases hs : pyStrip (req.session_id.getD "") = ""
    · simp [hs]
    · have hsb : (pyStrip (req.session_id.getD "") == "") = false := by
        simp [hs]
      simp [hsb, hs]

/-- C8 witness: a failing collaborator still yields a 200 whose answer
embeds the failure text and whose session_id is the fresh UUID. -/
theorem chat_always_http_200_witness :
    (chat init_db
        { message := some "hello", history := [], email := none, session_id := none }
        "uuid-1" "know" (fun _ => Except.error "boom") 0).1.status = 200 ∧
    ((chat init_db
        { message := some "hello", history := [], email := none, session_id := none }
        "uuid-1" "know" (fun _ => Except.error "boom") 0).1.answer =
      "Error during processing: boom" ∧
     (chat init_db
        { message := some "hello", history := [], email := none, session_id := none }
        "uuid-1" "know" (fun _ => Except.error "boom") 0).1.session_id =
      some "uuid-1") := by
  refine ⟨(chat_always_http_200 init_db
      { message := some "hello", history := [], email := none, session_id := none }
      "uuid-1" "know" (fun _ => Except.error "boom") 0).1, ?_⟩
  have h := (chat_always_http_200 init_db
      { message := some "hello", history := [], email := none, session_id := none }
      "uuid-1" "know" (fun _ => Except.error "boom") 0).2 "boom" (by decide) rfl
  exact h

theorem foldl_max_le_init (xs : List Nat) (a : Nat) : a ≤ xs.foldl max a := by
  induction xs generalizing a with
  | nil => exact Nat.le_refl a
  | cons x xs ih => exact Nat.le_trans (Nat.le_max_left a x) (ih (max a x))

theorem le_foldl_max (xs : List Nat) (a x : Nat) (hx : x ∈ xs) :
    x ≤ xs.foldl max a := by
  induction xs generalizing a with
  | nil => cases hx
  | cons y ys ih =>
      rcases List.mem_cons.mp hx with rfl | hmem
      · exact Nat.le_trans (Nat.le_max_right a x) (foldl_max_le_init ys (max a x))
      · exact ih (max a y) hmem

theorem foldl_max_mem (xs : List Nat) (a : Nat) :
    xs.foldl max a ∈ xs ∨ xs.foldl max a = a := by
  induction xs generalizing a with
  | nil => exact Or.inr rfl
  | cons x xs ih =>
      rcases ih (max a x) with h | h
      · exact Or.inl (List.mem_cons_of_mem _ h)
      · rcases max_choice a x with hm | hm
        · exact Or.inr (by rw [List.foldl_cons, h, hm])
        · exact Or.inl (by rw [List.foldl_cons, h, hm]; exact List.mem_cons_self _ _)

/-- C4: `get_sessions(user_id)` yields one entry per chat_sessions row of
the user, ordered by last_activity descending; a session with zero
messages still appears with messages_count 0 and last_activity equal to
the session row's creation time; a session with messages has
last_activity equal to its greatest message timestamp. -/
theorem get_sessions_spec (db : DB) (uid : Nat) (h : uid ≠ 0) :
    List.Perm (get_sessions db uid)
      ((db.chat_sessions.filter fun s => s.user_id == uid).map (sessionInfoOf db)) ∧
    List.Sorted laterFirst (get_sessions db uid) ∧
    (∀ s : SessionRow, sessionChats db s.user_id s.session_id = [] →
      sessionInfoOf db s =
        { session_id := s.session_id, title := s.title,
          messages_count := 0, last_activity := s.created_at }) ∧
    (∀ s : SessionRow,
      (sessionInfoOf db s).messages_count =
        (sessionChats db s.user_id s.session_id).length ∧
      ∀ c ∈ sessionChats db s.user_id s.session_id,
        c.created_at ≤ (sessionInfoOf db s).last_activity) ∧
    (∀ s : SessionRow, sessionChats db s.user_id s.session_id ≠ [] →
      ∃ c ∈ sessionChats db s.user_id s.session_id,
        (sessionInfoOf db s).last_activity = c.created_at) := by
  have hb : (uid == 0) = false := by simp [h]
  refine ⟨?_, ?_, ?_, ?_, ?_⟩
  · unfold get_sessions
    rw [if_neg (by simp [hb])]
    exact List.perm_insertionSort laterFirst _
  · unfold get_sessions
    rw [if_neg (by simp [hb])]
    exact List.sorted_insertionSort laterFirst _
  · intro s hs
    unfold sessionInfoOf lastActivity
    rw [hs]
    simp
  · intro s
    refine ⟨rfl, ?_⟩
    intro c hc
    unfold sessionInfoOf lastActivity
    match hm : sessionChats db s.user_id s.session_id with
    | [] =>
        rw [hm] at hc
        cases hc
    | c0 :: cs =>
        rw [hm] at hc
        simp only
        exact le_foldl_max _ 0 c.created_at (List.mem_map_of_mem _ hc)
  · intro s hne
    unfold sessionInfoOf lastActivity
    match hm : sessionChats db s.user_id s.session_id with
    | [] => exact absurd hm hne
    | c0 :: cs =>
        simp only
        rcases foldl_max_mem ((c0 :: cs).map ChatRow.created_at) 0 with hmem | h0
        · rcases List.mem_map.mp hmem with ⟨c, hc, hceq⟩
          exact ⟨c, hc, hceq.symm⟩
        · refine ⟨c0, List.mem_cons_self _ _, ?_⟩
          have hle : c0.created_at ≤ ((c0 :: cs).map ChatRow.created_at).foldl max 0 :=
            le_foldl_max _ 0 c0.created_at (List.mem_map_of_mem _ (List.mem_cons_self _ _))
          rw [h0] at hle ⊢
          exact Nat.le_antisymm (Nat.zero_le _) hle |>.symm ▸ rfl

/-- C4 witness: a user with one session row and no messages gets exactly
that one entry back. -/
theorem get_sessions_spec_witness :
    List.Perm
      (get_sessions
        { users := [], chats := [],
          chat_sessions := [{ id := 1, user_id := 1, session_id := "s",
                              title := none, created_at := 5 }],
          nextUserId := 1, nextChatId := 1, nextSessionRowId := 2 } 1)
      ((({ users := [], chats := [],
           chat_sessions := [{ id := 1, user_id := 1, session_id := "s",
                               title := none, created_at := 5 }],
           nextUserId := 1, nextChatId := 1, nextSessionRowId := 2 } : DB).chat_sessions.filter
        fun s => s.user_id == 1).map
        (sessionInfoOf
          { users := [], chats := [],
            chat_sessions := [{ id := 1, user_id := 1, session_id := "s",
                                title := none, created_at := 5 }],
            nextUserId := 1, nextChatId := 1, nextSessionRowId := 2 })) :=
  (get_sessions_spec
    { users := [], chats := [],
      chat_sessions := [{ id := 1, user_id := 1, session_id := "s",
                          title := none, created_at := 5 }],
      nextUserId := 1, nextChatId := 1, nextSessionRowId := 2 } 1 (by decide)).1

/-- C1: starting from any reachable state with no chat_sessions row for
the pair, two `save_message` calls (non-empty user_id, session_id and
texts) leave exactly one chat_sessions row and two chats rows for the
pair, `get_chat_history` returns the two messages in insertion order, and
the insert-if-absent session creation keeps at most one chat_sessions row
per (user_id, session_id) pair. -/
theorem save_message_twice_fresh_pair (db : DB) (hr : Reachable db)
    (uid : Nat) (sid r1 m1 r2 m2 : String) (t1 t2 : Nat)
    (h1 : uid ≠ 0) (h2 : sid ≠ "") (hm1 : m1 ≠ "") (hm2 : m2 ≠ "")
    (hfresh : sessionRows db uid sid = []) :
    (sessionRows (save_message (save_message db uid sid r1 m1 t1) uid sid r2 m2 t2)
      uid sid).length = 1 ∧
    (sessionChats (save_message (save_message db uid sid r1 m1 t1) uid sid r2 m2 t2)
      uid sid).length = 2 ∧
    get_chat_history (save_message (save_message db uid sid r1 m1 t1) uid sid r2 m2 t2)
      uid sid = [(r1, m1), (r2, m2)] ∧
    (∀ (uid' : Nat) (sid' : String),
      (sessionRows (save_message (save_message db uid sid r1 m1 t1) uid sid r2 m2 t2)
        uid' sid').length ≤ 1) := by
  have hinv := reachable_inv hr
  have hchats : db.chats.filter (chatMatch uid sid) = [] := by
    rw [List.filter_eq_nil_iff]
    intro c hc hcm
    rcases hinv.covered c hc with ⟨s, hs, hks⟩
    have hsm : sessMatch uid sid s = true := by
      simp only [chatMatch, Bool.and_eq_true, beq_iff_eq] at hcm
      simp only [sessMatch, Bool.and_eq_true, beq_iff_eq]
      rw [hks.1, hks.2]
      exact hcm
    have hmem : s ∈ sessionRows db uid sid := List.mem_filter.mpr ⟨hs, hsm⟩
    rw [hfresh] at hmem
    cases hmem
  have hanyf : db.chat_sessions.any (sessMatch uid sid) = false := by
    rw [← Bool.not_eq_true]
    intro hx
    rcases List.any_eq_true.mp hx with ⟨s, hs, hm⟩
    have hmem : s ∈ sessionRows db uid sid := List.mem_filter.mpr ⟨hs, hm⟩
    rw [hfresh] at hmem
    cases hmem
  have hg1 : (uid == 0 || sid == "" || m1 == "") = false := by simp [h1, h2, hm1]
  have hg2 : (uid == 0 || sid == "" || m2 == "") = false := by simp [h1, h2, hm2]
  have hdb1 : save_message db uid sid r1 m1 t1 =
      { users := db.users,
        chats := db.chats ++
          [{ id := db.nextChatId, user_id := uid, session_id := sid,
             role := r1, message := m1, created_at := t1 }],
        chat_sessions := db.chat_sessions ++
          [{ id := db.nextSessionRowId, user_id := uid, session_id := sid,
             title := none, created_at := t1 }],
        nextUserId := db.nextUserId,
        nextChatId := db.nextChatId + 1,
        nextSessionRowId := db.nextSessionRowId + 1 } := by
    simp only [save_message, hg1, Bool.false_eq_true, if_false, hanyf]
  have hany2 : (db.chat_sessions ++
      [({ id := db.nextSessionRowId, user_id := uid, session_id := sid,
          title := none, created_at := t1 } : SessionRow)]).any
        (sessMatch uid sid) = true := by
    apply List.any_eq_true.mpr
    refine ⟨_, List.mem_append_right _ (List.mem_singleton_self _), ?_⟩
    simp [sessMatch]
  have hdb2 : save_message (save_message db uid sid r1 m1 t1) uid sid r2 m2 t2 =
      { users := db.users,
        chats := (db.chats ++
          [{ id := db.nextChatId, user_id := uid, session_id := sid,
             role := r1, message := m1, created_at := t1 }]) ++
          [{ id := db.nextChatId + 1, user_id := uid, session_id := sid,
             role := r2, message := m2, created_at := t2 }],
        chat_sessions := db.chat_sessions ++
          [{ id := db.nextSessionRowId, user_id := uid, session_id := sid,
             title := none, created_at := t1 }],
        nextUserId := db.nextUserId,
        nextChatId := db.nextChatId + 1 + 1,
        nextSessionRowId := db.nextSessionRowId + 1 } := by
    rw [hdb1]
    simp only [save_message, hg2, Bool.false_eq_true, if_false, hany2, if_true]
  have hrowm1 : chatMatch uid sid
      ({ id := db.nextChatId, user_id := uid, session_id := sid,
         role := r1, message := m1, created_at := t1 } : ChatRow) = true := by
    simp [chatMatch]
  have hrowm2 : chatMatch uid sid
      ({ id := db.nextChatId + 1, user_id := uid, session_id := sid,
         role := r2, message := m2, created_at := t2 } : ChatRow) = true := by
    simp [chatMatch]
  have hsrowm : sessMatch uid sid
      ({ id := db.nextSessionRowId, user_id := uid, session_id := sid,
         title := none, created_at := t1 } : SessionRow) = true := by
    simp [sessMatch]
  have hfilter2 : (((db.chats ++
      [({ id := db.nextChatId, user_id := uid, session_id := sid,
          role := r1, message := m1, created_at := t1 } : ChatRow)]) ++
      [({ id := db.nextChatId + 1, user_id := uid, session_id := sid,
          role := r2, message := m2, created_at := t2 } : ChatRow)]).filter
        (chatMatch uid sid)) =
      [{ id := db.nextChatId, user_id := uid, session_id := sid,
         role := r1, message := m1, created_at := t1 },
       { id := db.nextChatId + 1, user_id := uid, session_id := sid,
         role := r2, message := m2, created_at := t2 }] := by
    rw [List.filter_append, List.filter_append, hchats]
    simp only [List.filter_cons, hrowm1, hrowm2, if_true, List.filter_nil,
      List.nil_append]
    rfl
  refine ⟨?_, ?_, ?_, ?_⟩
  · rw [hdb2, sessionRows]
    simp only [List.filter_append, hfresh]
    rw [show (sessionRows db uid sid) = db.chat_sessions.filter (sessMatch uid sid) from rfl] at hfresh
    rw [hfresh]
    simp only [List.filter_cons, hsrowm, if_true, List.filter_nil, List.nil_append]
    rfl
  · rw [hdb2, sessionChats, hfilter2]
    rfl
  · rw [hdb2]
    unfold get_chat_history
    rw [if_neg (by simp [h1, h2])]
    rw [show sessionChats
        { users := db.users,
          chats := (db.chats ++
            [{ id := db.nextChatId, user_id := uid, session_id := sid,
               role := r1, message := m1, created_at := t1 }]) ++
            [{ id := db.nextChatId + 1, user_id := uid, session_id := sid,
               role := r2, message := m2, created_at := t2 }],
          chat_sessions := db.chat_sessions ++
            [{ id := db.nextSessionRowId, user_id := uid, session_id := sid,
               title := none, created_at := t1 }],
          nextUserId := db.nextUserId,
          nextChatId := db.nextChatId + 1 + 1,
          nextSessionRowId := db.nextSessionRowId + 1 } uid sid =
      [{ id := db.nextChatId, user_id := uid, session_id := sid,
         role := r1, message := m1, created_at := t1 },
       { id := db.nextChatId + 1, user_id := uid, session_id := sid,
         role := r2, message := m2, created_at := t2 }] from hfilter2]
    simp only [List.insertionSort, List.orderedInsert]
    rw [if_pos ?hle]
    case hle => exact Nat.le_succ _
    simp
  · intro uid' sid'
    have hr2 : Reachable (save_message (save_message db uid sid r1 m1 t1)
        uid sid r2 m2 t2) :=
      Reachable.save _ uid sid r2 m2 t2 (Reachable.save db uid sid r1 m1 t1 hr)
    exact sessionRows_length_le_one (reachable_inv hr2).distinct uid' sid'

/-- C1 witness: two saves into a fresh database for user 1, session "s". -/
theorem save_message_twice_fresh_pair_witness :
    (sessionRows (save_message (save_message init_db 1 "s" "user" "hi" 0)
      1 "s" "assistant" "hello" 1) 1 "s").length = 1 ∧
    (sessionChats (save_message (save_message init_db 1 "s" "user" "hi" 0)
      1 "s" "assistant" "hello" 1) 1 "s").length = 2 ∧
    get_chat_history (save_message (save_message init_db 1 "s" "user" "hi" 0)
      1 "s" "assistant" "hello" 1) 1 "s" =
      [("user", "hi"), ("assistant", "hello")] ∧
    (∀ (uid' : Nat) (sid' : String),
      (sessionRows (save_message (save_message init_db 1 "s" "user" "hi" 0)
        1 "s" "assistant" "hello" 1) uid' sid').length ≤ 1) :=
  save_message_twice_fresh_pair init_db Reachable.init 1 "s" "user" "hi"
    "assistant" "hello" 0 1 (by decide) (by decide) (by decide) (by decide) rfl

end AouBot
